import Mathlib

/-!
# PowerShuffler1 — shallow embedding and verification

This file embeds the two firmware images of the PowerShuffler1 project:

* the **master MCU** (`ATTINY_master_mcu::main.c`): the telemetry decoder
  state machine driven by the `INT0`, `TIM0_COMPA` and `TIM0_OVF` interrupt
  service routines, plus the charge-controller logic of its `main` loop;
* the **client MCU** (`ATTINY_client_mcu::main.c`): the telemetry encoder
  that drives the one-wire line (`triggerRead`, `transmitOneTick`,
  `outputDataError`).

AVR `unsigned int` and `unsigned short` are both 16-bit; counters that the
C code increments are therefore taken modulo `2^16`.  Interrupt handlers
are embedded as pure step functions on an explicit register/global state
record; a decoder run is a left fold of the step function over a list of
interrupt events.  Wire-level frames are lists of line-level segments, and
a separate, clearly documented function translates a frame into the
interrupt-event trace it produces under nominal timing.
-/

namespace PowerShuffler

/-! ## Master MCU constants (ATTINY_master_mcu::main.c lines 25-39) -/

def VERIFYTRIGGERTIMEOUT : Nat := 4      -- max timeout ticks to verify not a glitch
def READINGTIMEOUT : Nat := 15625        -- reading timeout ticks
def MAXTIMEOUT : Nat := 0xFFFF           -- max timeout ticks
def MAXTIMEOUTCOUNT : Nat := 5           -- max iterations of max timeout ticks
def ADCITERATIONS : Nat := 4             -- number of readings averaged (master)
def ADCTHRESHOLDHI : Nat := 7            -- threshold for stopping charging
def ADCTHRESHOLDLOW : Nat := 4           -- hysteresis threshold for restarting
def MAXVOLTAGEADCVALUE : Nat := 232      -- ADC value of maximum output battery voltage
def MINVOLTAGEADCVALUE : Nat := 163      -- ADC value of minimum input battery voltage

/-! ## Decoder state machine (master) -/

/-- The C enumeration `ReadDataState` (master main.c lines 47-54). -/
inductive ReadDataState
  | Read_Idle
  | Read_VerifyTrigger
  | Read_Reading
  | Read_Timeout
  | Read_Error
deriving DecidableEq, Repr

/-- The globals and hardware registers the decoder ISRs read and write:
`g_readDataState`, `g_incomingCount` (`unsigned int`, 16-bit),
`g_idleTimeoutCount` (`unsigned short`, 16-bit), `OCR0A`, `EICRA`, `EIMSK`,
and the timer-run bit of `TCCR0B` together with `TCNT0`. -/
structure MasterRegs where
  g_readDataState : ReadDataState
  g_incomingCount : Nat
  g_idleTimeoutCount : Nat
  OCR0A : Nat
  EICRA : Nat
  EIMSK : Nat
  timerOn : Bool
  TCNT0 : Nat
deriving DecidableEq, Repr

/-- Function `resetAndStartTimer` (master main.c lines 103-107): `TCNT0 = 0`,
`TCCR0B |= 0x04`. -/
def resetAndStartTimer (s : MasterRegs) : MasterRegs :=
  { s with TCNT0 := 0, timerOn := true }

/-- Function `stopTimer` (master main.c lines 109-112): `TCCR0B &= 0xFB`. -/
def stopTimer (s : MasterRegs) : MasterRegs :=
  { s with timerOn := false }

/-- Function `resetReadStateToIdle` (master main.c lines 114-121). -/
def resetReadStateToIdle (s : MasterRegs) : MasterRegs :=
  { s with g_idleTimeoutCount := 0
         , g_readDataState := ReadDataState.Read_Idle
         , OCR0A := MAXTIMEOUT
         , EICRA := 0x00
         , EIMSK := 0x01 }

/-- Handler `ISR(INT0_vect)` (master main.c lines 213-233): the line-edge interrupt. -/
def ISR_INT0 (s : MasterRegs) : MasterRegs :=
  match s.g_readDataState with
  | ReadDataState.Read_Idle =>
      resetAndStartTimer
        { stopTimer s with
            EIMSK := 0x00
          , g_readDataState := ReadDataState.Read_VerifyTrigger
          , OCR0A := VERIFYTRIGGERTIMEOUT }
  | ReadDataState.Read_Reading =>
      { s with g_incomingCount := (s.g_incomingCount + 1) % 65536 }
  | _ => s  -- interrupt has been triggered out-of-state

/-- Handler `ISR(TIM0_COMPA_vect)` (master main.c lines 235-263): the timer compare
interrupt; `PINB2` is the line level returned by `readPinB2()` at the time
the handler samples it (`true` = line high). -/
def ISR_TIM0_COMPA (s : MasterRegs) (PINB2 : Bool) : MasterRegs :=
  match s.g_readDataState with
  | ReadDataState.Read_VerifyTrigger =>
      resetAndStartTimer
        (if PINB2 then
          -- PB2 has floated hi: the signal was a glitch, go back to Idle
          resetReadStateToIdle (stopTimer s)
        else
          -- PB2 still held lo: not a glitch, continue Reading
          { stopTimer s with
              g_incomingCount := 0
            , g_readDataState := ReadDataState.Read_Reading
            , OCR0A := READINGTIMEOUT
            , EICRA := 0x02
            , EIMSK := 0x01 })
  | ReadDataState.Read_Reading =>
      { stopTimer s with
          g_readDataState :=
            if PINB2 then ReadDataState.Read_Timeout else ReadDataState.Read_Error
        , EIMSK := 0x00 }
  | _ => s

/-- Handler `ISR(TIM0_OVF_vect)` (master main.c lines 265-275): the idle-timeout
overflow interrupt.  In C, `if(g_readDataState == Read_Idle &&
++g_idleTimeoutCount > MAXTIMEOUTCOUNT)` pre-increments the 16-bit counter
only when the state is `Read_Idle` (short-circuit), then compares. -/
def ISR_TIM0_OVF (s : MasterRegs) : MasterRegs :=
  if s.g_readDataState = ReadDataState.Read_Idle then
    if MAXTIMEOUTCOUNT < (s.g_idleTimeoutCount + 1) % 65536 then
      { stopTimer s with
          g_readDataState := ReadDataState.Read_Error
        , g_idleTimeoutCount := 0
        , EIMSK := 0x00 }
    else { s with g_idleTimeoutCount := (s.g_idleTimeoutCount + 1) % 65536 }
  else s

/-- One interrupt event delivered to the decoder: an `INT0` line edge, a
`TIM0_COMPA` compare match carrying the line level the handler reads, or a
`TIM0_OVF` overflow. -/
inductive DecoderEvent
  | int0
  | compa (PINB2 : Bool)
  | ovf
deriving DecidableEq, Repr

/-- Dispatch one interrupt event to its handler. -/
def decoderStep (s : MasterRegs) : DecoderEvent → MasterRegs
  | DecoderEvent.int0 => ISR_INT0 s
  | DecoderEvent.compa b => ISR_TIM0_COMPA s b
  | DecoderEvent.ovf => ISR_TIM0_OVF s

/-- Run the decoder over a list of interrupt events. -/
def decoderRun (s : MasterRegs) (es : List DecoderEvent) : MasterRegs :=
  es.foldl decoderStep s

/-- The decoder state right after `main` executes `resetReadStateToIdle();
resetAndStartTimer();` (master main.c lines 297-298), starting from the
globals' initial values. -/
def initialMasterRegs : MasterRegs :=
  resetAndStartTimer (resetReadStateToIdle
    { g_readDataState := ReadDataState.Read_Idle
    , g_incomingCount := 0
    , g_idleTimeoutCount := 0
    , OCR0A := MAXTIMEOUT
    , EICRA := 0x00
    , EIMSK := 0x01
    , timerOn := false
    , TCNT0 := 0 })

/-! ## Client MCU encoder (ATTINY_client_mcu::main.c) -/

namespace Client

def TRIGGERTIMEOUTCOUNT : Nat := 256  -- minimum iterations to trigger master reading
def TRANSMITDELAYCOUNT : Nat := 128   -- iterations between transmitted edges
def ADCITERATIONS : Nat := 3          -- number of readings averaged (client)
def MAXVOLTAGEADCVALUE : Nat := 237   -- ADC value of maximum battery voltage

end Client

/-- One constant-level segment of the one-wire waveform: the line level
(`true` = high) and the number of busy-wait iterations it is held for;
`none` means the level is held for the remainder of the node's active
period (the indefinite error hold). -/
structure Seg where
  level : Bool
  iters : Option Nat
deriving DecidableEq, Repr

namespace Client

/-- Function `triggerRead` (client main.c lines 135-143): hold lo for the minimum
trigger count, then reset to hi for data output. -/
def triggerReadWire : List Seg :=
  [⟨false, some TRIGGERTIMEOUTCOUNT⟩, ⟨true, some TRANSMITDELAYCOUNT⟩]

/-- Function `transmitOneTick` (client main.c lines 125-133): one edge-pair, lo then
hi, each for `TRANSMITDELAYCOUNT` iterations. -/
def transmitOneTickWire : List Seg :=
  [⟨false, some TRANSMITDELAYCOUNT⟩, ⟨true, some TRANSMITDELAYCOUNT⟩]

/-- Function `outputDataError` (client main.c lines 145-151): hold the output lo for
the duration of power-on. -/
def outputDataErrorWire : List Seg :=
  [⟨false, none⟩]

/-- The waveform the client's `main` loop drives for one averaged ADC value
(client main.c lines 184-198): `adcvalue > MAXVOLTAGEADCVALUE || adcvalue
== 0` selects the error hold; otherwise a trigger preamble followed by
exactly `adcvalue` edge-pairs. -/
def clientTransmitWire (adcvalue : Nat) : List Seg :=
  if MAXVOLTAGEADCVALUE < adcvalue ∨ adcvalue = 0 then
    outputDataErrorWire
  else
    triggerReadWire ++ (List.replicate adcvalue transmitOneTickWire).flatten

end Client

/-! ## Nominal-timing translation of a waveform into decoder events

The client's waveforms strictly alternate line levels starting from the
idle-high line, so every low segment begins with one falling edge.  Under
nominal timing (the timing invariants of the design hold: the 4-tick
glitch-verification window elapses while the first low segment — the
256-iteration trigger hold or the indefinite error hold — is still being
driven, every falling edge during `Reading` fires `INT0`, and the
reading-timeout compare fires after the waveform has ended, reading the
level of the final segment) the interrupt-event trace of a waveform is as
computed here. -/

/-- Events generated after the trigger edge and the glitch-verification
compare: one `INT0` edge per low segment, then the reading-timeout compare
reading the level the line was left at (`level` tracks the current line
level, initially that of the first segment). -/
def dataEvents (level : Bool) : List Seg → List DecoderEvent
  | [] => [DecoderEvent.compa level]
  | s :: rest =>
      (if s.level then [] else [DecoderEvent.int0]) ++ dataEvents s.level rest

/-- The full nominal interrupt-event trace of a waveform: the initial
falling edge, the glitch-verification compare reading the first segment's
level (still being driven when the 4-tick window expires), then the data
events. -/
def nominalEventsOfWire : List Seg → List DecoderEvent
  | [] => []
  | s0 :: rest =>
      DecoderEvent.int0 :: DecoderEvent.compa s0.level :: dataEvents s0.level rest

/-! ## Charge controller (master `main`, lines 288-343) -/

/-- Function `getAdcValueBusyWaitWithAveraging` (master main.c lines 187-197): sum
`ADCITERATIONS` raw reads in a 16-bit accumulator and divide.  `read i` is
the `i`-th raw `ADCL` value returned by `getAdcValueBusyWait`. -/
def getAdcValueBusyWaitWithAveraging (read : Nat → Nat) : Nat :=
  (((List.range ADCITERATIONS).map read).foldl (fun a b => (a + b) % 65536) 0)
    / ADCITERATIONS

/-- The environment of one iteration of the master main loop:
the single (non-averaged) input reading taken at the top of the loop, the
decoder state and edge count when the busy-wait at lines 299-300 exits, and
the fresh raw readings used to re-sample the local reference in the
`Read_Timeout` branch. -/
structure CycleInput where
  inputAdc : Nat
  decodeState : ReadDataState
  decodedCount : Nat
  refRead : Nat → Nat

/-- The observable outcome of one iteration of the master main loop. -/
structure CycleResult where
  clientPoweredOn : Bool      -- `turnOnClient()` executed
  decoderStarted : Bool       -- `resetReadStateToIdle(); resetAndStartTimer()` executed
  decision : Option Bool      -- some true: keep charging (the `continue`); some false: stop; none: no decision
  g_adcThreshold : Nat        -- the hysteresis threshold after the iteration
  ledSolidOn : Bool           -- `turnOnLed()` error indication executed
  sleeps : Bool               -- the iteration reaches the sleep loop
  clientOffAtEnd : Bool       -- `turnOffClient()` executed
deriving DecidableEq, Repr

/-- One iteration of the master `main` loop (master main.c lines 292-343),
given the current `g_adcThreshold`.  The `continue` at line 309 skips
`turnOffClient`, the power-down and the sleep loop, so a keep-charging
decision leaves the client powered and retries immediately. -/
def masterCycle (c : CycleInput) (g_adcThreshold : Nat) : CycleResult :=
  if MINVOLTAGEADCVALUE < c.inputAdc then
    if c.decodeState = ReadDataState.Read_Timeout then
      if c.decodedCount < getAdcValueBusyWaitWithAveraging c.refRead + g_adcThreshold
         ∧ c.decodedCount < MAXVOLTAGEADCVALUE then
        { clientPoweredOn := true, decoderStarted := true, decision := some true
        , g_adcThreshold := ADCTHRESHOLDHI, ledSolidOn := false
        , sleeps := false, clientOffAtEnd := false }
      else
        { clientPoweredOn := true, decoderStarted := true, decision := some false
        , g_adcThreshold := ADCTHRESHOLDLOW, ledSolidOn := false
        , sleeps := true, clientOffAtEnd := true }
    else
      { clientPoweredOn := true, decoderStarted := true, decision := none
      , g_adcThreshold := g_adcThreshold, ledSolidOn := true
      , sleeps := true, clientOffAtEnd := true }
  else
    { clientPoweredOn := false, decoderStarted := false, decision := none
    , g_adcThreshold := g_adcThreshold, ledSolidOn := false
    , sleeps := true, clientOffAtEnd := true }

/-- Threshold evolution and the decision log over a sequence of main-loop
iterations. -/
def runCycles (g_adcThreshold : Nat) : List CycleInput → Nat × List (Option Bool)
  | [] => (g_adcThreshold, [])
  | c :: cs =>
      let r := masterCycle c g_adcThreshold
      let p := runCycles r.g_adcThreshold cs
      (p.1, r.decision :: p.2)

/-! ## Basic facts about individual decoder steps and runs -/

theorem decoderRun_nil (s : MasterRegs) : decoderRun s [] = s := rfl

theorem decoderRun_cons (s : MasterRegs) (e : DecoderEvent) (es : List DecoderEvent) :
    decoderRun s (e :: es) = decoderRun (decoderStep s e) es := rfl

theorem decoderRun_append (s : MasterRegs) (es fs : List DecoderEvent) :
    decoderRun s (es ++ fs) = decoderRun (decoderRun s es) fs :=
  List.foldl_append _ _ _ _

theorem ISR_INT0_idle (s : MasterRegs)
    (hs : s.g_readDataState = ReadDataState.Read_Idle) :
    ISR_INT0 s = { s with g_readDataState := ReadDataState.Read_VerifyTrigger
                        , OCR0A := VERIFYTRIGGERTIMEOUT
                        , EIMSK := 0x00
                        , timerOn := true
                        , TCNT0 := 0 } := by
  unfold ISR_INT0
  rw [hs]
  rfl

theorem ISR_INT0_reading (s : MasterRegs)
    (hs : s.g_readDataState = ReadDataState.Read_Reading) :
    ISR_INT0 s = { s with g_incomingCount := (s.g_incomingCount + 1) % 65536 } := by
  unfold ISR_INT0
  rw [hs]

theorem ISR_TIM0_COMPA_verify_glitch (s : MasterRegs)
    (hs : s.g_readDataState = ReadDataState.Read_VerifyTrigger) :
    ISR_TIM0_COMPA s true
      = { s with g_idleTimeoutCount := 0
               , g_readDataState := ReadDataState.Read_Idle
               , OCR0A := MAXTIMEOUT
               , EICRA := 0x00
               , EIMSK := 0x01
               , timerOn := true
               , TCNT0 := 0 } := by
  unfold ISR_TIM0_COMPA
  rw [hs]
  rfl

theorem ISR_TIM0_COMPA_verify_trigger (s : MasterRegs)
    (hs : s.g_readDataState = ReadDataState.Read_VerifyTrigger) :
    ISR_TIM0_COMPA s false
      = { s with g_incomingCount := 0
               , g_readDataState := ReadDataState.Read_Reading
               , OCR0A := READINGTIMEOUT
               , EICRA := 0x02
               , EIMSK := 0x01
               , timerOn := true
               , TCNT0 := 0 } := by
  unfold ISR_TIM0_COMPA
  rw [hs]
  rfl

theorem ISR_TIM0_COMPA_reading (s : MasterRegs) (b : Bool)
    (hs : s.g_readDataState = ReadDataState.Read_Reading) :
    ISR_TIM0_COMPA s b
      = { s with g_readDataState :=
                   if b then ReadDataState.Read_Timeout else ReadDataState.Read_Error
               , EIMSK := 0x00
               , timerOn := false } := by
  unfold ISR_TIM0_COMPA
  rw [hs]
  rfl

theorem ISR_TIM0_OVF_idle_small (s : MasterRegs)
    (hs : s.g_readDataState = ReadDataState.Read_Idle)
    (hc : s.g_idleTimeoutCount + 1 ≤ MAXTIMEOUTCOUNT) :
    ISR_TIM0_OVF s = { s with g_idleTimeoutCount := s.g_idleTimeoutCount + 1 } := by
  simp only [MAXTIMEOUTCOUNT] at hc
  unfold ISR_TIM0_OVF
  rw [if_pos hs, Nat.mod_eq_of_lt (by omega)]
  rw [if_neg (by simp only [MAXTIMEOUTCOUNT]; omega)]

theorem ISR_TIM0_OVF_idle_max (s : MasterRegs)
    (hs : s.g_readDataState = ReadDataState.Read_Idle)
    (hc : s.g_idleTimeoutCount = MAXTIMEOUTCOUNT) :
    ISR_TIM0_OVF s
      = { s with g_readDataState := ReadDataState.Read_Error
               , g_idleTimeoutCount := 0
               , EIMSK := 0x00
               , timerOn := false } := by
  unfold ISR_TIM0_OVF
  rw [if_pos hs, hc]
  rw [if_pos (by decide)]
  rfl

theorem decoderStep_error (s : MasterRegs) (e : DecoderEvent)
    (hs : s.g_readDataState = ReadDataState.Read_Error) :
    decoderStep s e = s := by
  cases e with
  | int0 =>
      show ISR_INT0 s = s
      unfold ISR_INT0
      rw [hs]
  | compa b =>
      show ISR_TIM0_COMPA s b = s
      unfold ISR_TIM0_COMPA
      rw [hs]
  | ovf =>
      show ISR_TIM0_OVF s = s
      unfold ISR_TIM0_OVF
      rw [if_neg (by rw [hs]; decide)]

theorem decoderRun_error (s : MasterRegs) (es : List DecoderEvent)
    (hs : s.g_readDataState = ReadDataState.Read_Error) :
    decoderRun s es = s := by
  induction es with
  | nil => exact decoderRun_nil s
  | cons e es ih =>
      rw [decoderRun_cons, decoderStep_error s e hs]
      exact ih

theorem decoderRun_replicate_int0 (v : Nat) : ∀ (s : MasterRegs),
    s.g_readDataState = ReadDataState.Read_Reading →
    s.g_incomingCount + v < 65536 →
    decoderRun s (List.replicate v DecoderEvent.int0)
      = { s with g_incomingCount := s.g_incomingCount + v } := by
  induction v with
  | zero =>
      intro s hs _
      rw [show List.replicate 0 DecoderEvent.int0 = [] from rfl, decoderRun_nil]
      rfl
  | succ n ih =>
      intro s hs hv
      rw [List.replicate_succ, decoderRun_cons]
      have hstep : decoderStep s DecoderEvent.int0
          = { s with g_incomingCount := s.g_incomingCount + 1 } := by
        show ISR_INT0 s = _
        rw [ISR_INT0_reading s hs, Nat.mod_eq_of_lt (by omega)]
      rw [hstep,
        ih { s with g_incomingCount := s.g_incomingCount + 1 } hs
          (by show s.g_incomingCount + 1 + n < 65536; omega)]
      congr 1
      show s.g_incomingCount + 1 + n = s.g_incomingCount + (n + 1)
      omega

theorem decoderRun_replicate_ovf (k : Nat) : ∀ (s : MasterRegs),
    s.g_readDataState = ReadDataState.Read_Idle →
    s.g_idleTimeoutCount + k ≤ MAXTIMEOUTCOUNT →
    decoderRun s (List.replicate k DecoderEvent.ovf)
      = { s with g_idleTimeoutCount := s.g_idleTimeoutCount + k } := by
  induction k with
  | zero =>
      intro s hs _
      rw [show List.replicate 0 DecoderEvent.ovf = [] from rfl, decoderRun_nil]
      rfl
  | succ n ih =>
      intro s hs hk
      simp only [MAXTIMEOUTCOUNT] at hk
      rw [List.replicate_succ, decoderRun_cons]
      have hstep : decoderStep s DecoderEvent.ovf
          = { s with g_idleTimeoutCount := s.g_idleTimeoutCount + 1 } := by
        show ISR_TIM0_OVF s = _
        exact ISR_TIM0_OVF_idle_small s hs (by simp only [MAXTIMEOUTCOUNT]; omega)
      rw [hstep,
        ih { s with g_idleTimeoutCount := s.g_idleTimeoutCount + 1 } hs
          (by show s.g_idleTimeoutCount + 1 + n ≤ MAXTIMEOUTCOUNT
              simp only [MAXTIMEOUTCOUNT]; omega)]
      congr 1
      show s.g_idleTimeoutCount + 1 + n = s.g_idleTimeoutCount + (n + 1)
      omega

/-! ## Wire-to-event computations -/

theorem dataEvents_ticks (v : Nat) :
    dataEvents true (List.replicate v Client.transmitOneTickWire).flatten
      = List.replicate v DecoderEvent.int0 ++ [DecoderEvent.compa true] := by
  induction v with
  | zero => rfl
  | succ n ih =>
      rw [List.replicate_succ, List.flatten_cons]
      rw [List.replicate_succ]
      show dataEvents true
          (Seg.mk false (some Client.TRANSMITDELAYCOUNT)
            :: Seg.mk true (some Client.TRANSMITDELAYCOUNT)
            :: (List.replicate n Client.transmitOneTickWire).flatten) = _
      show DecoderEvent.int0
          :: dataEvents true (List.replicate n Client.transmitOneTickWire).flatten = _
      rw [ih]
      rfl

theorem nominalEvents_valid (v : Nat) (h1 : v ≠ 0)
    (h2 : v ≤ Client.MAXVOLTAGEADCVALUE) :
    nominalEventsOfWire (Client.clientTransmitWire v)
      = DecoderEvent.int0 :: DecoderEvent.compa false ::
          (List.replicate v DecoderEvent.int0 ++ [DecoderEvent.compa true]) := by
  unfold Client.clientTransmitWire
  rw [if_neg (by simp only [Client.MAXVOLTAGEADCVALUE] at h2 ⊢; omega)]
  show DecoderEvent.int0 :: DecoderEvent.compa false ::
      dataEvents false
        (Seg.mk true (some Client.TRANSMITDELAYCOUNT)
          :: (List.replicate v Client.transmitOneTickWire).flatten) = _
  show DecoderEvent.int0 :: DecoderEvent.compa false ::
      dataEvents true (List.replicate v Client.transmitOneTickWire).flatten = _
  rw [dataEvents_ticks]

/-! ## Claim theorems -/

/-- C1: for every valid sample value V (1 ≤ V ≤ 237, not zero and not above
the encoder's maximum), encoding V — trigger preamble followed by V
edge-pairs — and running the decoder state machine on the resulting frame
under nominal timing with no noise yields final decoder state
`Read_Timeout` with decoded edge count exactly V. -/
theorem C1_roundtrip (v : Nat) (h1 : 1 ≤ v) (h2 : v ≤ Client.MAXVOLTAGEADCVALUE) :
    (decoderRun initialMasterRegs
        (nominalEventsOfWire (Client.clientTransmitWire v))).g_readDataState
      = ReadDataState.Read_Timeout
    ∧ (decoderRun initialMasterRegs
        (nominalEventsOfWire (Client.clientTransmitWire v))).g_incomingCount = v := by
  rw [nominalEvents_valid v (by omega) h2]
  rw [show (DecoderEvent.int0 :: DecoderEvent.compa false ::
        (List.replicate v DecoderEvent.int0 ++ [DecoderEvent.compa true]))
      = [DecoderEvent.int0, DecoderEvent.compa false]
        ++ (List.replicate v DecoderEvent.int0 ++ [DecoderEvent.compa true]) from rfl]
  rw [decoderRun_append, decoderRun_append]
  have e2 : decoderRun initialMasterRegs [DecoderEvent.int0, DecoderEvent.compa false]
      = { g_readDataState := ReadDataState.Read_Reading
        , g_incomingCount := 0
        , g_idleTimeoutCount := 0
        , OCR0A := READINGTIMEOUT
        , EICRA := 0x02
        , EIMSK := 0x01
        , timerOn := true
        , TCNT0 := 0 } := by decide
  rw [e2]
  rw [decoderRun_replicate_int0 v
        { g_readDataState := ReadDataState.Read_Reading
        , g_incomingCount := 0
        , g_idleTimeoutCount := 0
        , OCR0A := READINGTIMEOUT
        , EICRA := 0x02
        , EIMSK := 0x01
        , timerOn := true
        , TCNT0 := 0 } rfl
        (by show 0 + v < 65536
            simp only [Client.MAXVOLTAGEADCVALUE] at h2
            omega)]
  refine ⟨rfl, ?_⟩
  show 0 + v = v
  omega

/-- Witness for C1 at V = 100. -/
theorem C1_roundtrip_witness :
    (decoderRun initialMasterRegs
        (nominalEventsOfWire (Client.clientTransmitWire 100))).g_readDataState
      = ReadDataState.Read_Timeout
    ∧ (decoderRun initialMasterRegs
        (nominalEventsOfWire (Client.clientTransmitWire 100))).g_incomingCount = 100 :=
  C1_roundtrip 100 (by decide) (by decide)

/-- C4: every sample the encoder classifies as invalid (zero or above its
maximum 237) makes the encoder assert a sustained low hold instead of any
pulse train, and a decoder whose reading timeout expires with the line
still low in `Read_Reading` ends in `Read_Error`, never in `Read_Timeout`
with a decoded count. -/
theorem C4_error_propagation :
    (∀ avg : Nat, avg = 0 ∨ Client.MAXVOLTAGEADCVALUE < avg →
      Client.clientTransmitWire avg = Client.outputDataErrorWire
      ∧ (decoderRun initialMasterRegs
            (nominalEventsOfWire (Client.clientTransmitWire avg))).g_readDataState
          = ReadDataState.Read_Error)
    ∧ ∀ s : MasterRegs, s.g_readDataState = ReadDataState.Read_Reading →
        (decoderStep s (DecoderEvent.compa false)).g_readDataState
          = ReadDataState.Read_Error := by
  constructor
  · intro avg h
    have hw : Client.clientTransmitWire avg = Client.outputDataErrorWire := by
      unfold Client.clientTransmitWire
      rw [if_pos (Or.symm h)]
    refine ⟨hw, ?_⟩
    rw [hw]
    decide
  · intro s hs
    rw [show decoderStep s (DecoderEvent.compa false) = ISR_TIM0_COMPA s false from rfl,
        ISR_TIM0_COMPA_reading s false hs]
    rfl

/-- Witness for C4 at avg = 0 and at a concrete `Read_Reading` state. -/
theorem C4_error_propagation_witness :
    (Client.clientTransmitWire 0 = Client.outputDataErrorWire
      ∧ (decoderRun initialMasterRegs
            (nominalEventsOfWire (Client.clientTransmitWire 0))).g_readDataState
          = ReadDataState.Read_Error)
    ∧ (decoderStep
        { g_readDataState := ReadDataState.Read_Reading, g_incomingCount := 7
        , g_idleTimeoutCount := 0, OCR0A := READINGTIMEOUT, EICRA := 0x02
        , EIMSK := 0x01, timerOn := true, TCNT0 := 0 }
        (DecoderEvent.compa false)).g_readDataState = ReadDataState.Read_Error :=
  ⟨C4_error_propagation.1 0 (Or.inl rfl), C4_error_propagation.2 _ rfl⟩

/-- C5: a low pulse shorter than the glitch-verification window (the
verification compare fires with the line already back high) returns the
decoder to `Read_Idle` without incrementing the edge counter and without
signaling a trigger (edge interrupts are simply re-armed); this holds both
for the verification step itself and for the whole edge-then-glitch-compare
sequence started from `Read_Idle`. -/
theorem C5_glitch_rejection :
    (∀ s : MasterRegs, s.g_readDataState = ReadDataState.Read_VerifyTrigger →
      (decoderStep s (DecoderEvent.compa true)).g_readDataState
          = ReadDataState.Read_Idle
      ∧ (decoderStep s (DecoderEvent.compa true)).g_incomingCount
          = s.g_incomingCount
      ∧ (decoderStep s (DecoderEvent.compa true)).EIMSK = 0x01)
    ∧ ∀ s : MasterRegs, s.g_readDataState = ReadDataState.Read_Idle →
        (decoderRun s [DecoderEvent.int0, DecoderEvent.compa true]).g_readDataState
          = ReadDataState.Read_Idle
        ∧ (decoderRun s [DecoderEvent.int0, DecoderEvent.compa true]).g_incomingCount
          = s.g_incomingCount := by
  constructor
  · intro s hs
    rw [show decoderStep s (DecoderEvent.compa true) = ISR_TIM0_COMPA s true from rfl,
        ISR_TIM0_COMPA_verify_glitch s hs]
    exact ⟨rfl, rfl, rfl⟩
  · intro s hs
    rw [decoderRun_cons, decoderRun_cons, decoderRun_nil]
    rw [show decoderStep s DecoderEvent.int0 = ISR_INT0 s from rfl, ISR_INT0_idle s hs]
    rw [show decoderStep
          { s with g_readDataState := ReadDataState.Read_VerifyTrigger
                 , OCR0A := VERIFYTRIGGERTIMEOUT
                 , EIMSK := 0x00
                 , timerOn := true
                 , TCNT0 := 0 } (DecoderEvent.compa true)
        = ISR_TIM0_COMPA
          { s with g_readDataState := ReadDataState.Read_VerifyTrigger
                 , OCR0A := VERIFYTRIGGERTIMEOUT
                 , EIMSK := 0x00
                 , timerOn := true
                 , TCNT0 := 0 } true from rfl]
    rw [ISR_TIM0_COMPA_verify_glitch _ rfl]
    exact ⟨rfl, rfl⟩

/-- Witness for C5 at a concrete `Read_VerifyTrigger` state and a concrete
`Read_Idle` state. -/
theorem C5_glitch_rejection_witness :
    ((decoderStep
        { g_readDataState := ReadDataState.Read_VerifyTrigger, g_incomingCount := 9
        , g_idleTimeoutCount := 2, OCR0A := VERIFYTRIGGERTIMEOUT, EICRA := 0x00
        , EIMSK := 0x00, timerOn := true, TCNT0 := 0 }
        (DecoderEvent.compa true)).g_readDataState = ReadDataState.Read_Idle
      ∧ (decoderStep
        { g_readDataState := ReadDataState.Read_VerifyTrigger, g_incomingCount := 9
        , g_idleTimeoutCount := 2, OCR0A := VERIFYTRIGGERTIMEOUT, EICRA := 0x00
        , EIMSK := 0x00, timerOn := true, TCNT0 := 0 }
        (DecoderEvent.compa true)).g_incomingCount = 9
      ∧ (decoderStep
        { g_readDataState := ReadDataState.Read_VerifyTrigger, g_incomingCount := 9
        , g_idleTimeoutCount := 2, OCR0A := VERIFYTRIGGERTIMEOUT, EICRA := 0x00
        , EIMSK := 0x00, timerOn := true, TCNT0 := 0 }
        (DecoderEvent.compa true)).EIMSK = 0x01)
    ∧ ((decoderRun initialMasterRegs
          [DecoderEvent.int0, DecoderEvent.compa true]).g_readDataState
        = ReadDataState.Read_Idle
      ∧ (decoderRun initialMasterRegs
          [DecoderEvent.int0, DecoderEvent.compa true]).g_incomingCount
        = initialMasterRegs.g_incomingCount) :=
  ⟨C5_glitch_rejection.1 _ rfl, C5_glitch_rejection.2 initialMasterRegs rfl⟩

/-- States and events with no defined transition in the decoder: an edge in
`Read_VerifyTrigger`, `Read_Timeout` or `Read_Error` (the `default` arm of
`ISR(INT0_vect)`), a compare match in `Read_Idle`, `Read_Timeout` or
`Read_Error` (the `default` arm of `ISR(TIM0_COMPA_vect)`), and an overflow
in any state other than `Read_Idle` (the short-circuited condition of
`ISR(TIM0_OVF_vect)`). -/
def noDefinedTransition : ReadDataState → DecoderEvent → Bool
  | ReadDataState.Read_Idle, DecoderEvent.int0 => false
  | ReadDataState.Read_Reading, DecoderEvent.int0 => false
  | _, DecoderEvent.int0 => true
  | ReadDataState.Read_VerifyTrigger, DecoderEvent.compa _ => false
  | ReadDataState.Read_Reading, DecoderEvent.compa _ => false
  | _, DecoderEvent.compa _ => true
  | ReadDataState.Read_Idle, DecoderEvent.ovf => false
  | _, DecoderEvent.ovf => true

/-- C8: every event with no defined transition in the current decoder state
(for example an edge arriving in `Read_Timeout` or `Read_Error`, or a
compare event in `Read_Idle`) is a complete no-op: the decoder state, the
edge counter, the idle-timeout counter and every modeled register are left
unchanged, and the step is a total function, so no undefined behavior
occurs. -/
theorem C8_out_of_state_noop (s : MasterRegs) (e : DecoderEvent)
    (h : noDefinedTransition s.g_readDataState e = true) :
    decoderStep s e = s := by
  rcases s with ⟨st, ic, itc, oc, ecr, em, ton, tc⟩
  cases st <;> cases e <;>
    first
      | rfl
      | simp [noDefinedTransition] at h

/-- Witness for C8: an edge arriving in `Read_Timeout` is a no-op. -/
theorem C8_out_of_state_noop_witness :
    decoderStep
      { g_readDataState := ReadDataState.Read_Timeout, g_incomingCount := 42
      , g_idleTimeoutCount := 1, OCR0A := READINGTIMEOUT, EICRA := 0x02
      , EIMSK := 0x00, timerOn := false, TCNT0 := 0 } DecoderEvent.int0
      = { g_readDataState := ReadDataState.Read_Timeout, g_incomingCount := 42
        , g_idleTimeoutCount := 1, OCR0A := READINGTIMEOUT, EICRA := 0x02
        , EIMSK := 0x00, timerOn := false, TCNT0 := 0 } :=
  C8_out_of_state_noop _ DecoderEvent.int0 rfl

/-- C6: with the decoder staying in `Read_Idle` and no trigger ever
observed, the first `MAXTIMEOUTCOUNT` (5) timer overflows only advance the
idle-timeout counter, the sixth (more than 5 consecutive overflows) moves
the decoder to `Read_Error` with the idle-timeout counter cleared, and
every further overflow leaves it in `Read_Error` — the error is produced
exactly once per max-count window and the step function is total, so the
decoder neither hangs nor crashes. -/
theorem C6_idle_silence_error (s : MasterRegs)
    (hs : s.g_readDataState = ReadDataState.Read_Idle)
    (hc : s.g_idleTimeoutCount = 0) :
    (∀ k, k ≤ MAXTIMEOUTCOUNT →
        (decoderRun s (List.replicate k DecoderEvent.ovf)).g_readDataState
          = ReadDataState.Read_Idle
      ∧ (decoderRun s (List.replicate k DecoderEvent.ovf)).g_idleTimeoutCount = k)
    ∧ ∀ m, (decoderRun s
          (List.replicate (MAXTIMEOUTCOUNT + 1 + m) DecoderEvent.ovf)).g_readDataState
        = ReadDataState.Read_Error
      ∧ (decoderRun s
          (List.replicate (MAXTIMEOUTCOUNT + 1 + m) DecoderEvent.ovf)).g_idleTimeoutCount
        = 0 := by
  have herr : decoderRun s (List.replicate (MAXTIMEOUTCOUNT + 1) DecoderEvent.ovf)
      = { s with g_readDataState := ReadDataState.Read_Error
               , g_idleTimeoutCount := 0
               , EIMSK := 0x00
               , timerOn := false } := by
    rw [show MAXTIMEOUTCOUNT + 1 = 5 + 1 from rfl, List.replicate_add, decoderRun_append]
    rw [decoderRun_replicate_ovf 5 s hs (by rw [hc]; decide)]
    rw [show List.replicate 1 DecoderEvent.ovf = [DecoderEvent.ovf] from rfl,
        decoderRun_cons, decoderRun_nil]
    show ISR_TIM0_OVF _ = _
    rw [ISR_TIM0_OVF_idle_max
          { s with g_idleTimeoutCount := s.g_idleTimeoutCount + 5 } hs
          (by show s.g_idleTimeoutCount + 5 = MAXTIMEOUTCOUNT; rw [hc]; decide)]
  constructor
  · intro k hk
    rw [decoderRun_replicate_ovf k s hs (by rw [hc]; omega)]
    exact ⟨hs, by show s.g_idleTimeoutCount + k = k; omega⟩
  · intro m
    rw [List.replicate_add, decoderRun_append, herr]
    rw [decoderRun_error _ _ rfl]
    exact ⟨rfl, rfl⟩

/-- Witness for C6 from the decoder's initial state, at k = 5 and m = 0. -/
theorem C6_idle_silence_error_witness :
    ((decoderRun initialMasterRegs
        (List.replicate 5 DecoderEvent.ovf)).g_readDataState
          = ReadDataState.Read_Idle
      ∧ (decoderRun initialMasterRegs
        (List.replicate 5 DecoderEvent.ovf)).g_idleTimeoutCount = 5)
    ∧ ((decoderRun initialMasterRegs
        (List.replicate (MAXTIMEOUTCOUNT + 1 + 0) DecoderEvent.ovf)).g_readDataState
          = ReadDataState.Read_Error
      ∧ (decoderRun initialMasterRegs
        (List.replicate (MAXTIMEOUTCOUNT + 1 + 0) DecoderEvent.ovf)).g_idleTimeoutCount
          = 0) :=
  ⟨(C6_idle_silence_error initialMasterRegs rfl rfl).1 5 (by decide),
   (C6_idle_silence_error initialMasterRegs rfl rfl).2 0⟩

/-! ## Glitch traces and the silence-error window (C10) -/

/-- One idle window: up to `MAXTIMEOUTCOUNT` overflows while waiting in
`Read_Idle`, then a short low glitch — a falling edge followed by the
verification compare firing with the line back high. -/
def glitchBlock (k : Nat) : List DecoderEvent :=
  List.replicate k DecoderEvent.ovf ++ [DecoderEvent.int0, DecoderEvent.compa true]

/-- An arbitrarily long event sequence in which a sub-verification-window
glitch arrives before the idle-timeout counter exceeds its maximum. -/
def glitchTrace (ks : List Nat) : List DecoderEvent :=
  (ks.map glitchBlock).flatten

theorem stepInt0_idle_state (s : MasterRegs)
    (hs : s.g_readDataState = ReadDataState.Read_Idle) :
    (decoderStep s DecoderEvent.int0).g_readDataState
      = ReadDataState.Read_VerifyTrigger := by
  rw [show decoderStep s DecoderEvent.int0 = ISR_INT0 s from rfl, ISR_INT0_idle s hs]

theorem glitchBlock_run (k : Nat) (s : MasterRegs)
    (hs : s.g_readDataState = ReadDataState.Read_Idle)
    (hc : s.g_idleTimeoutCount = 0) (hk : k ≤ MAXTIMEOUTCOUNT) :
    (decoderRun s (glitchBlock k)).g_readDataState = ReadDataState.Read_Idle
    ∧ (decoderRun s (glitchBlock k)).g_idleTimeoutCount = 0 := by
  unfold glitchBlock
  rw [decoderRun_append, decoderRun_replicate_ovf k s hs (by rw [hc]; omega)]
  rw [decoderRun_cons, decoderRun_cons, decoderRun_nil]
  have h1 : decoderStep { s with g_idleTimeoutCount := s.g_idleTimeoutCount + k }
      DecoderEvent.int0
      = { s with g_idleTimeoutCount := s.g_idleTimeoutCount + k
               , g_readDataState := ReadDataState.Read_VerifyTrigger
               , OCR0A := VERIFYTRIGGERTIMEOUT
               , EIMSK := 0x00
               , timerOn := true
               , TCNT0 := 0 } := by
    show ISR_INT0 { s with g_idleTimeoutCount := s.g_idleTimeoutCount + k } = _
    rw [ISR_INT0_idle { s with g_idleTimeoutCount := s.g_idleTimeoutCount + k } hs]
  rw [h1]
  have h2 : decoderStep
      { s with g_idleTimeoutCount := s.g_idleTimeoutCount + k
             , g_readDataState := ReadDataState.Read_VerifyTrigger
             , OCR0A := VERIFYTRIGGERTIMEOUT
             , EIMSK := 0x00
             , timerOn := true
             , TCNT0 := 0 } (DecoderEvent.compa true)
      = { s with g_idleTimeoutCount := 0
               , g_readDataState := ReadDataState.Read_Idle
               , OCR0A := MAXTIMEOUT
               , EICRA := 0x00
               , EIMSK := 0x01
               , timerOn := true
               , TCNT0 := 0 } := by
    show ISR_TIM0_COMPA
        { s with g_idleTimeoutCount := s.g_idleTimeoutCount + k
               , g_readDataState := ReadDataState.Read_VerifyTrigger
               , OCR0A := VERIFYTRIGGERTIMEOUT
               , EIMSK := 0x00
               , timerOn := true
               , TCNT0 := 0 } true = _
    rw [ISR_TIM0_COMPA_verify_glitch
          { s with g_idleTimeoutCount := s.g_idleTimeoutCount + k
                 , g_readDataState := ReadDataState.Read_VerifyTrigger
                 , OCR0A := VERIFYTRIGGERTIMEOUT
                 , EIMSK := 0x00
                 , timerOn := true
                 , TCNT0 := 0 } rfl]
  rw [h2]
  exact ⟨rfl, rfl⟩

theorem glitchBlock_prefix_safe (k : Nat) (s : MasterRegs)
    (hs : s.g_readDataState = ReadDataState.Read_Idle)
    (hc : s.g_idleTimeoutCount = 0) (hk : k ≤ MAXTIMEOUTCOUNT)
    (p q : List DecoderEvent) (hpq : glitchBlock k = p ++ q) :
    (decoderRun s p).g_readDataState ≠ ReadDataState.Read_Error := by
  unfold glitchBlock at hpq
  rcases List.append_eq_append_iff.mp hpq with ⟨a, ha1, ha2⟩ | ⟨c, hc1, hc2⟩
  · -- p extends the overflow run into the edge/compare pair
    rcases a with _ | ⟨e1, a⟩
    · -- p is exactly the overflow run
      rw [List.append_nil] at ha1
      rw [ha1, decoderRun_replicate_ovf k s hs (by rw [hc]; omega)]
      show s.g_readDataState ≠ ReadDataState.Read_Error
      rw [hs]
      decide
    · rcases a with _ | ⟨e2, a⟩
      · -- p is the overflow run plus the falling edge
        have he1 : e1 = DecoderEvent.int0 := by
          injection ha2 with h _
          exact h.symm
        subst he1
        rw [ha1, decoderRun_append, decoderRun_cons, decoderRun_nil]
        have hst : (decoderRun s (List.replicate k DecoderEvent.ovf)).g_readDataState
            = ReadDataState.Read_Idle := by
          rw [decoderRun_replicate_ovf k s hs (by rw [hc]; omega)]
          exact hs
        rw [stepInt0_idle_state _ hst]
        decide
      · -- p is the whole block
        have he1 : e1 = DecoderEvent.int0 := by
          injection ha2 with h _
          exact h.symm
        have h2 := ha2
        injection h2 with _ h2
        have he2 : e2 = DecoderEvent.compa true := by
          injection h2 with h _
          exact h.symm
        have ha : a = [] ∧ q = [] := by
          injection h2 with _ h3
          exact List.append_eq_nil.mp h3.symm
        subst he1
        subst he2
        rcases ha with ⟨ha, _⟩
        subst ha
        rw [ha1]
        have := glitchBlock_run k s hs hc hk
        unfold glitchBlock at this
        rw [this.1]
        decide
  · -- p is a prefix of the overflow run
    have hall : ∀ b ∈ p, b = DecoderEvent.ovf := by
      intro b hb
      exact List.eq_of_mem_replicate
        (by rw [hc1]; exact List.mem_append_left _ hb)
    have hp : p = List.replicate p.length DecoderEvent.ovf :=
      List.eq_replicate_iff.mpr ⟨rfl, hall⟩
    have hlen : p.length ≤ k := by
      have hlg := congrArg List.length hc1
      simp only [List.length_replicate, List.length_append] at hlg
      omega
    rw [hp, decoderRun_replicate_ovf p.length s hs
          (by rw [hc]; simp only [MAXTIMEOUTCOUNT] at hk ⊢; omega)]
    show s.g_readDataState ≠ ReadDataState.Read_Error
    rw [hs]
    decide

/-- C10: a glitch rejection (verification compare with the line high)
resets the idle-timeout counter to zero, so the silence-error window
restarts; consequently any event sequence made of idle windows in which a
sub-verification-window glitch arrives before the idle-timeout counter
exceeds its maximum never drives the decoder into the silence
`Read_Error`, no matter how long the sequence runs. -/
theorem C10_glitch_resets_idle_window :
    (∀ s : MasterRegs, s.g_readDataState = ReadDataState.Read_VerifyTrigger →
      (decoderStep s (DecoderEvent.compa true)).g_idleTimeoutCount = 0)
    ∧ ∀ ks : List Nat, (∀ k ∈ ks, k ≤ MAXTIMEOUTCOUNT) →
        ∀ p q : List DecoderEvent, glitchTrace ks = p ++ q →
          (decoderRun initialMasterRegs p).g_readDataState
            ≠ ReadDataState.Read_Error := by
  constructor
  · intro s hs
    rw [show decoderStep s (DecoderEvent.compa true) = ISR_TIM0_COMPA s true from rfl,
        ISR_TIM0_COMPA_verify_glitch s hs]
  · have main : ∀ ks : List Nat, (∀ k ∈ ks, k ≤ MAXTIMEOUTCOUNT) →
        ∀ s : MasterRegs, s.g_readDataState = ReadDataState.Read_Idle →
          s.g_idleTimeoutCount = 0 →
          ∀ p q : List DecoderEvent, glitchTrace ks = p ++ q →
            (decoderRun s p).g_readDataState ≠ ReadDataState.Read_Error := by
      intro ks
      induction ks with
      | nil =>
          intro _ s hs _ p q hpq
          have hp : p = [] ∧ q = [] :=
            List.append_eq_nil.mp (by simpa [glitchTrace] using hpq.symm)
          rcases hp with ⟨hp, _⟩
          subst hp
          rw [decoderRun_nil, hs]
          decide
      | cons k ks ih =>
          intro hall s hs hc p q hpq
          have hks : ∀ j ∈ ks, j ≤ MAXTIMEOUTCOUNT :=
            fun j hj => hall j (List.mem_cons_of_mem _ hj)
          have hk : k ≤ MAXTIMEOUTCOUNT := hall k (List.mem_cons_self _ _)
          have htr : glitchTrace (k :: ks) = glitchBlock k ++ glitchTrace ks := by
            simp [glitchTrace]
          rw [htr] at hpq
          rcases List.append_eq_append_iff.mp hpq with ⟨a, ha1, ha2⟩ | ⟨c, hc1, hc2⟩
          · obtain ⟨hst, hcnt⟩ := glitchBlock_run k s hs hc hk
            rw [ha1, decoderRun_append]
            exact ih hks _ hst hcnt a q ha2
          · exact glitchBlock_prefix_safe k s hs hc hk p c hc1
    intro ks hall p q hpq
    exact main ks hall initialMasterRegs rfl rfl p q hpq

/-- Witness for C10 at a concrete `Read_VerifyTrigger` state and the glitch
trace with idle windows of 3 and 2 overflows. -/
theorem C10_glitch_resets_idle_window_witness :
    (decoderStep
      { g_readDataState := ReadDataState.Read_VerifyTrigger, g_incomingCount := 1
      , g_idleTimeoutCount := 3, OCR0A := VERIFYTRIGGERTIMEOUT, EICRA := 0x00
      , EIMSK := 0x00, timerOn := true, TCNT0 := 0 }
      (DecoderEvent.compa true)).g_idleTimeoutCount = 0
    ∧ (decoderRun initialMasterRegs (glitchTrace [3, 2])).g_readDataState
        ≠ ReadDataState.Read_Error :=
  ⟨C10_glitch_resets_idle_window.1 _ rfl,
   C10_glitch_resets_idle_window.2 [3, 2] (by decide) (glitchTrace [3, 2]) []
     (by simp)⟩

/-! ## Controller claims -/

/-- C2: on a `Read_Timeout` outcome with decoded value V the controller
re-samples a fresh averaged local reference R; if V < R + currentThreshold
and V < 232 it keeps the charging path enabled (the client is not switched
off), sets the active threshold to its high value 7, and retries the cycle
immediately without sleeping; otherwise it disables the charging path, sets
the active threshold to its low value 4, and reports success (no error
indication).  In particular V=100, R=104, threshold=7 keeps charging and
V=120, R=104, threshold=7 stops charging. -/
theorem C2_charge_decision :
    (∀ (c : CycleInput) (t : Nat),
        MINVOLTAGEADCVALUE < c.inputAdc →
        c.decodeState = ReadDataState.Read_Timeout →
        ((c.decodedCount < getAdcValueBusyWaitWithAveraging c.refRead + t
            ∧ c.decodedCount < MAXVOLTAGEADCVALUE) →
          masterCycle c t
            = { clientPoweredOn := true, decoderStarted := true
              , decision := some true, g_adcThreshold := ADCTHRESHOLDHI
              , ledSolidOn := false, sleeps := false, clientOffAtEnd := false })
        ∧ (¬(c.decodedCount < getAdcValueBusyWaitWithAveraging c.refRead + t
            ∧ c.decodedCount < MAXVOLTAGEADCVALUE) →
          masterCycle c t
            = { clientPoweredOn := true, decoderStarted := true
              , decision := some false, g_adcThreshold := ADCTHRESHOLDLOW
              , ledSolidOn := false, sleeps := true, clientOffAtEnd := true }))
    ∧ masterCycle
        { inputAdc := 200, decodeState := ReadDataState.Read_Timeout
        , decodedCount := 100, refRead := fun _ => 104 } 7
      = { clientPoweredOn := true, decoderStarted := true, decision := some true
        , g_adcThreshold := ADCTHRESHOLDHI, ledSolidOn := false
        , sleeps := false, clientOffAtEnd := false }
    ∧ masterCycle
        { inputAdc := 200, decodeState := ReadDataState.Read_Timeout
        , decodedCount := 120, refRead := fun _ => 104 } 7
      = { clientPoweredOn := true, decoderStarted := true, decision := some false
        , g_adcThreshold := ADCTHRESHOLDLOW, ledSolidOn := false
        , sleeps := true, clientOffAtEnd := true } := by
  refine ⟨?_, by decide, by decide⟩
  intro c t hin htm
  constructor
  · intro h
    unfold masterCycle
    rw [if_pos hin, if_pos htm, if_pos h]
  · intro h
    unfold masterCycle
    rw [if_pos hin, if_pos htm, if_neg h]

/-- Witness for C2 at the V=100, R=104, threshold=7 scenario. -/
theorem C2_charge_decision_witness :
    masterCycle
        { inputAdc := 200, decodeState := ReadDataState.Read_Timeout
        , decodedCount := 100, refRead := fun _ => 104 } 7
      = { clientPoweredOn := true, decoderStarted := true, decision := some true
        , g_adcThreshold := ADCTHRESHOLDHI, ledSolidOn := false
        , sleeps := false, clientOffAtEnd := false } :=
  (C2_charge_decision.1
      { inputAdc := 200, decodeState := ReadDataState.Read_Timeout
      , decodedCount := 100, refRead := fun _ => 104 } 7
      (by decide) rfl).1 (by decide)

/-- C3: on a `Read_Error` outcome the controller disables the charging path
for the cycle (the client is switched off at the end), leaves the
hysteresis threshold variable unchanged, makes no charge decision, and
surfaces the error status (status LED held solid on). -/
theorem C3_error_cycle (c : CycleInput) (t : Nat)
    (hin : MINVOLTAGEADCVALUE < c.inputAdc)
    (herr : c.decodeState = ReadDataState.Read_Error) :
    masterCycle c t
      = { clientPoweredOn := true, decoderStarted := true, decision := none
        , g_adcThreshold := t, ledSolidOn := true
        , sleeps := true, clientOffAtEnd := true } := by
  unfold masterCycle
  rw [if_pos hin, if_neg (by rw [herr]; decide)]

/-- Witness for C3 at a concrete error cycle with threshold 6. -/
theorem C3_error_cycle_witness :
    masterCycle
        { inputAdc := 200, decodeState := ReadDataState.Read_Error
        , decodedCount := 0, refRead := fun _ => 0 } 6
      = { clientPoweredOn := true, decoderStarted := true, decision := none
        , g_adcThreshold := 6, ledSolidOn := true
        , sleeps := true, clientOffAtEnd := true } :=
  C3_error_cycle _ 6 (by decide) rfl

/-- C9: when the single non-averaged input reading at the top of the loop
is not above `MINVOLTAGEADCVALUE` (163), the client node is never powered
on, the decoder is never started, no charge decision is made, the
hysteresis threshold is left unchanged, no error is indicated and the node
just sleeps. -/
theorem C9_low_input_skips_cycle (c : CycleInput) (t : Nat)
    (h : c.inputAdc ≤ MINVOLTAGEADCVALUE) :
    masterCycle c t
      = { clientPoweredOn := false, decoderStarted := false, decision := none
        , g_adcThreshold := t, ledSolidOn := false
        , sleeps := true, clientOffAtEnd := true } := by
  unfold masterCycle
  rw [if_neg (by omega)]

/-- Witness for C9 at inputAdc = 163 (exactly the minimum, not above it). -/
theorem C9_low_input_skips_cycle_witness :
    masterCycle
        { inputAdc := 163, decodeState := ReadDataState.Read_Idle
        , decodedCount := 0, refRead := fun _ => 0 } 7
      = { clientPoweredOn := false, decoderStarted := false, decision := none
        , g_adcThreshold := 7, ledSolidOn := false
        , sleeps := true, clientOffAtEnd := true } :=
  C9_low_input_skips_cycle _ 7 (by decide)

/-! ## Hysteresis helpers (C7) -/

theorem masterCycle_keep_threshold (c : CycleInput) (t : Nat)
    (h : (masterCycle c t).decision = some true) :
    (masterCycle c t).g_adcThreshold = ADCTHRESHOLDHI := by
  unfold masterCycle at h ⊢
  split_ifs at h ⊢ <;> first | rfl | (exact absurd h (by decide))

theorem masterCycle_none_threshold (c : CycleInput) (t : Nat)
    (h : (masterCycle c t).decision = none) :
    (masterCycle c t).g_adcThreshold = t := by
  unfold masterCycle at h ⊢
  split_ifs at h ⊢ <;> rfl

theorem runCycles_no_stop_high : ∀ (cs : List CycleInput) (t : Nat),
    t = ADCTHRESHOLDHI → some false ∉ (runCycles t cs).2 →
    (runCycles t cs).1 = ADCTHRESHOLDHI := by
  intro cs
  induction cs with
  | nil => intro t ht _; exact ht
  | cons c cs ih =>
      intro t ht hmem
      subst ht
      have hmem2 : some false ∉ ((masterCycle c ADCTHRESHOLDHI).decision
          :: (runCycles (masterCycle c ADCTHRESHOLDHI).g_adcThreshold cs).2) := hmem
      have hdec : (masterCycle c ADCTHRESHOLDHI).decision ≠ some false :=
        fun hd => hmem2 (List.mem_cons.mpr (Or.inl hd.symm))
      have htail : some false
          ∉ (runCycles (masterCycle c ADCTHRESHOLDHI).g_adcThreshold cs).2 :=
        fun hm => hmem2 (List.mem_cons_of_mem _ hm)
      show (runCycles (masterCycle c ADCTHRESHOLDHI).g_adcThreshold cs).1
          = ADCTHRESHOLDHI
      rcases hdec2 : (masterCycle c ADCTHRESHOLDHI).decision with _ | b
      · have hth := masterCycle_none_threshold c ADCTHRESHOLDHI hdec2
        rw [hth] at htail ⊢
        exact ih _ rfl htail
      · cases b with
        | false => exact absurd hdec2 hdec
        | true =>
            have hth := masterCycle_keep_threshold c ADCTHRESHOLDHI hdec2
            rw [hth] at htail ⊢
            exact ih _ rfl htail

/-- C7: across any sequence of control cycles, a keep-charging decision
always sets the active threshold to the high value; a cycle that makes no
decision leaves the threshold unchanged; the threshold changes to the low
value only in a cycle whose decision ends charging; and as long as no cycle
makes a stop-charging decision, a threshold that is high stays high for the
whole sequence. -/
theorem C7_hysteresis :
    (∀ (c : CycleInput) (t : Nat),
        (masterCycle c t).decision = some true →
        (masterCycle c t).g_adcThreshold = ADCTHRESHOLDHI)
    ∧ (∀ (c : CycleInput) (t : Nat),
        (masterCycle c t).decision = none →
        (masterCycle c t).g_adcThreshold = t)
    ∧ (∀ (c : CycleInput) (t : Nat),
        (masterCycle c t).g_adcThreshold ≠ t →
        ((masterCycle c t).g_adcThreshold = ADCTHRESHOLDLOW
          ↔ (masterCycle c t).decision = some false))
    ∧ ∀ (t : Nat) (cs : List CycleInput),
        t = ADCTHRESHOLDHI →
        some false ∉ (runCycles t cs).2 →
        (runCycles t cs).1 = ADCTHRESHOLDHI := by
  refine ⟨masterCycle_keep_threshold, masterCycle_none_threshold, ?_, ?_⟩
  · intro c t hne
    unfold masterCycle at hne ⊢
    split_ifs at hne ⊢ <;> first | (exact absurd rfl hne) | decide
  · intro t cs ht hm
    exact runCycles_no_stop_high cs t ht hm

/-- Witness for C7: a keep-charging cycle from the low threshold sets the
high threshold, and a one-cycle sequence with no stop decision keeps the
high threshold. -/
theorem C7_hysteresis_witness :
    (masterCycle
        { inputAdc := 200, decodeState := ReadDataState.Read_Timeout
        , decodedCount := 100, refRead := fun _ => 104 } 4).g_adcThreshold
      = ADCTHRESHOLDHI
    ∧ (runCycles ADCTHRESHOLDHI
        [{ inputAdc := 200, decodeState := ReadDataState.Read_Timeout
         , decodedCount := 100, refRead := fun _ => 104 }]).1 = ADCTHRESHOLDHI :=
  ⟨C7_hysteresis.1 _ 4 (by decide),
   C7_hysteresis.2.2.2 ADCTHRESHOLDHI _ rfl (by decide)⟩

end PowerShuffler
